import Mathlib

/-!
Verification of the Reddit scraper's outbound API-access core: the token
manager and paced, retrying dispatcher (`src/services/redditService.js`),
the post-listing and description normalizers
(`src/controllers/subredditController.js`), and the comment-tree
normalizer.  Every definition is a shallow embedding of the JavaScript
source; machine timestamps are modelled as naturals/integers (milliseconds)
and JavaScript's `null`/`undefined` as `Option`.
-/

namespace RedditScraper

/-! ## Description cleaning (`cleanDescriptionText`, subredditController.js 16-34)

The JS function applies four global regex replacements in order; each is
embedded as a left-to-right scan over the character list.  The fuelled
variants are structurally recursive (every step consumes at least one
character, so the list's length is enough fuel); the wrappers fix the fuel. -/

/-- JavaScript `\s` restricted to the ASCII range: space, tab, line feed,
vertical tab, form feed, carriage return.  (The Unicode space classes that
`\s` also covers play no role in the claims.) -/
def isJsWs (c : Char) : Bool :=
  c == ' ' || c == '\t' || c == '\n' || c == '\x0b' || c == '\x0c' || c == '\r'

/-- A JavaScript LineTerminator as `^`/m sees it (U+2028/U+2029 left out). -/
def isJsLineTerm (c : Char) : Bool :=
  c == '\n' || c == '\r'

/-- The remainder after the first `>` — the end of the leftmost match of
`<[^>]*>` starting at the current `<` — or `none` when no `>` follows
(then the `<` has no match at all and is kept). -/
def findCloseTag : List Char → Option (List Char)
  | [] => none
  | c :: rest => if c == '>' then some rest else findCloseTag rest

/-- One pass of `replace(/<[^>]*>/g, '')` (line 22), with fuel. -/
def stripTagsF : Nat → List Char → List Char
  | 0, l => l
  | _ + 1, [] => []
  | fuel + 1, c :: rest =>
    if c == '<' then
      match findCloseTag rest with
      | some rem => stripTagsF fuel rem
      | none => c :: rest
    else c :: stripTagsF fuel rest

def stripTags (l : List Char) : List Char := stripTagsF l.length l

/-- Split at the first occurrence of `stop`: `(characters before it,
characters after it)`, `none` when `stop` never occurs. -/
def splitBefore (stop : Char) : List Char → Option (List Char × List Char)
  | [] => none
  | c :: rest =>
    if c == stop then some ([], rest)
    else
      match splitBefore stop rest with
      | some (p, r) => some (c :: p, r)
      | none => none

/-- The match of `\[([^\]]+)\]\([^)]+\)` whose `\[` is the character just
consumed: `(captured link text, remainder after the closing parenthesis)`.
`[^\]]+` and `[^)]+` are greedy but bounded by the first `]` / `)`, so the
match is this split or nothing. -/
def matchLink (l : List Char) : Option (List Char × List Char) :=
  match splitBefore ']' l with
  | some (txt, r1) =>
    if txt.isEmpty then none
    else
      match r1 with
      | '(' :: r2 =>
        (match splitBefore ')' r2 with
         | some (url, r3) => if url.isEmpty then none else some (txt, r3)
         | none => none)
      | _ => none
  | none => none

/-- One pass of `replace(/\[([^\]]+)\]\([^)]+\)/g, '$1')` (line 25): the
captured text is emitted, the scan resumes after the match; on failure the
`[` is kept and the scan advances one character. -/
def stripLinksF : Nat → List Char → List Char
  | 0, l => l
  | _ + 1, [] => []
  | fuel + 1, c :: rest =>
    if c == '[' then
      match matchLink rest with
      | some (txt, rem) => txt ++ stripLinksF fuel rem
      | none => c :: stripLinksF fuel rest
    else c :: stripLinksF fuel rest

def stripLinks (l : List Char) : List Char := stripLinksF l.length l

/-- Greedily drop `#+`. -/
def dropHashes : List Char → List Char
  | '#' :: rest => dropHashes rest
  | l => l

/-- Greedily drop `\s*`; the Bool reports whether the last dropped character
was a line terminator (the next position is then a `^`/m line start). -/
def dropWsTrackNl (lastNl : Bool) : List Char → List Char × Bool
  | [] => ([], lastNl)
  | c :: rest =>
    if isJsWs c then dropWsTrackNl (isJsLineTerm c) rest
    else (c :: rest, lastNl)

/-- One pass of `replace(/^#+\s*|---|\*\*|__|\*|_/gm, '')` (line 28).  The
alternatives are tried in order at every position; only the header
alternative is anchored (`^` with the m flag, tracked by `lineStart`), the
rule and emphasis alternatives match anywhere. -/
def stripMarkersF : Nat → Bool → List Char → List Char
  | 0, _, l => l
  | _ + 1, _, [] => []
  | fuel + 1, lineStart, c :: rest =>
    if lineStart && c == '#' then
      let r1 := dropHashes rest
      let pr := dropWsTrackNl false r1
      stripMarkersF fuel pr.2 pr.1
    else if c == '-' then
      match rest with
      | '-' :: '-' :: r => stripMarkersF fuel false r
      | _ => c :: stripMarkersF fuel false rest
    else if c == '*' then
      match rest with
      | '*' :: r => stripMarkersF fuel false r
      | _ => stripMarkersF fuel false rest
    else if c == '_' then
      match rest with
      | '_' :: r => stripMarkersF fuel false r
      | _ => stripMarkersF fuel false rest
    else c :: stripMarkersF fuel (isJsLineTerm c) rest

def stripMarkers (l : List Char) : List Char := stripMarkersF l.length true l

/-- One pass of `replace(/\s\s+/g, ' ')` (line 31): two or more consecutive
whitespace characters become one space; a lone whitespace character is not
touched. -/
def collapseWsF : Nat → List Char → List Char
  | 0, l => l
  | _ + 1, [] => []
  | fuel + 1, c :: rest =>
    if isJsWs c then
      match rest with
      | d :: rest2 =>
        if isJsWs d then ' ' :: collapseWsF fuel (rest2.dropWhile isJsWs)
        else c :: collapseWsF fuel rest
      | [] => [c]
    else c :: collapseWsF fuel rest

def collapseWs (l : List Char) : List Char := collapseWsF l.length l

/-- `String.prototype.trim`, on the modelled whitespace set. -/
def jsTrim (l : List Char) : List Char :=
  ((l.dropWhile isJsWs).reverse.dropWhile isJsWs).reverse

/-- `cleanDescriptionText` (subredditController.js 16-34).  `none` models a
null/undefined argument; `!text` is also true for the empty string. -/
def cleanDescriptionText (text : Option String) : String :=
  match text with
  | none => ""
  | some s =>
    if s = "" then ""
    else
      let p1 := stripTags s.data
      let p2 := stripLinks p1
      let p3 := stripMarkers p2
      let p4 := collapseWs p3
      String.mk (jsTrim p4)

/-! ### The cleaning pipeline as the claim words it

The claim (and spec §4.3) says the header, horizontal-rule and bullet
patterns are "anchored per line" and that runs of whitespace are collapsed
to single spaces.  The following variant is modelled from those words — it
differs from the source exactly where the claim differs from the source:
the rule (`---`) and bullet alternatives only match at a line start, and
every maximal run of whitespace (also a run of length one) becomes one
space. -/

/-- Marker stripping as the claim describes it: header `#+\s*`, rule `---`
and a dash bullet anchored at line starts; emphasis `**`/`__`/`*`/`_`
anywhere. -/
def claimStripMarkersF : Nat → Bool → List Char → List Char
  | 0, _, l => l
  | _ + 1, _, [] => []
  | fuel + 1, lineStart, c :: rest =>
    if lineStart && c == '#' then
      let r1 := dropHashes rest
      let pr := dropWsTrackNl false r1
      claimStripMarkersF fuel pr.2 pr.1
    else if c == '-' then
      match rest with
      | '-' :: '-' :: r =>
        if lineStart then claimStripMarkersF fuel false r
        else c :: claimStripMarkersF fuel false rest
      | ' ' :: r =>
        if lineStart then claimStripMarkersF fuel false (' ' :: r)
        else c :: claimStripMarkersF fuel false rest
      | _ => c :: claimStripMarkersF fuel false rest
    else if c == '*' then
      match rest with
      | '*' :: r => claimStripMarkersF fuel false r
      | _ => claimStripMarkersF fuel false rest
    else if c == '_' then
      match rest with
      | '_' :: r => claimStripMarkersF fuel false r
      | _ => claimStripMarkersF fuel false rest
    else c :: claimStripMarkersF fuel (isJsLineTerm c) rest

/-- Whitespace collapsing as the claim words it: every maximal run of
whitespace characters becomes a single space. -/
def claimCollapseWsF : Nat → List Char → List Char
  | 0, l => l
  | _ + 1, [] => []
  | fuel + 1, c :: rest =>
    if isJsWs c then ' ' :: claimCollapseWsF fuel (rest.dropWhile isJsWs)
    else c :: claimCollapseWsF fuel rest

/-- The cleaning function as the claim describes it (modelled from the
claim's words, for comparison with `cleanDescriptionText`). -/
def cleanDescriptionClaim (text : Option String) : String :=
  match text with
  | none => ""
  | some s =>
    if s = "" then ""
    else
      let p1 := stripTags s.data
      let p2 := stripLinks p1
      let p3 := claimStripMarkersF p2.length true p2
      let p4 := claimCollapseWsF p3.length p3
      String.mk (jsTrim p4)

/-! ## Comment-tree normalization (`formatApiComments`, comments controller 18-57) -/

/-- `x || '[deleted]'` on an optional author field (absent or empty string
is falsy). -/
def jsOrDeleted (author : Option String) : String :=
  match author with
  | some a => if a = "" then "[deleted]" else a
  | none => "[deleted]"

/-- A raw comment wrapper as the formatter reads it: `kind` is the wrapper's
tag, the remaining fields are the fields of `wrapper.data` the two branches
access.  `children` models `data.children` (absent = `none`); `replies`
models `data.replies?.data?.children` (`none` when `replies` is missing or
the empty string Reddit sends for leaf comments). -/
inductive RawCommentWrapper where
  | mk (kind : String) (id : String) (author : Option String) (body : String)
      (body_html : String) (score : Int) (created_utc : Nat) (stickied : Bool)
      (is_submitter : Bool) (permalink : String) (parent_id : String)
      (count : Nat) (children : Option (List String))
      (replies : Option (List RawCommentWrapper))

/-- A normalized comment-tree node: a real comment or a `more` pagination
placeholder. -/
inductive FormattedComment where
  | more (id : String) (count : Nat) (parent_id : String)
      (children_ids : List String)
  | comment (id : String) (author : String) (body : String) (body_html : String)
      (score : Int) (created_utc : Nat) (stickied : Bool) (is_submitter : Bool)
      (permalink : String) (parent_id : String) (replies : List FormattedComment)

/-- `formatApiComments` (comments controller 18-57): the `map` + null
`filter` of the source fused into one recursion.  A wrapper of kind `more`
becomes a placeholder node (lines 26-34), a wrapper of kind `t1` becomes a
comment node with recursively formatted replies (lines 37-52), any other
kind maps to null and is dropped (lines 55-56), so the retained nodes keep
their input order.  The inner recursion receives
`comment.replies?.data?.children || []` (line 38). -/
def formatApiComments : List RawCommentWrapper → List FormattedComment
  | [] => []
  | .mk kind id author body body_html score created_utc stickied is_submitter
      permalink parent_id count children replies :: ws =>
    if kind = "more" then
      .more id count parent_id (children.getD []) :: formatApiComments ws
    else if kind = "t1" then
      .comment id (jsOrDeleted author) body body_html score created_utc
          stickied is_submitter ("https://www.reddit.com" ++ permalink) parent_id
          (formatApiComments (match replies with | some rs => rs | none => []))
        :: formatApiComments ws
    else formatApiComments ws
termination_by l => sizeOf l
decreasing_by
  all_goals simp_wf
  all_goals cases replies <;> simp_arith

/-! ## Post-listing normalization (`getSubredditPosts` map, subredditController.js 171-231) -/

/-- One entry of `post.media_metadata`: the fields the gallery-URL logic
reads.  `e` is the element-type tag, `m` the MIME type (absent = `none`),
`id` the media id the URL is built from. -/
structure MediaItem where
  status : String
  e : String
  m : Option String
  id : String

/-- A raw post (`postWrapper.data`) as the mapper reads it.  Optional string
fields model absent-or-null JS fields; `media_fallback_url` flattens
`post.media?.reddit_video?.fallback_url`; `media_metadata` is the metadata
map as an ordered key-item list (`Object.keys` enumerates string keys in
insertion order). -/
structure RawPost where
  id : String
  title : String
  score : Int
  author : Option String
  subreddit_name_prefixed : String
  created_utc : Nat
  permalink : String
  num_comments : Nat
  is_self : Bool
  selftext : Option String
  over_18 : Bool
  spoiler : Bool
  stickied : Bool
  link_flair_text : Option String
  is_video : Bool
  is_gallery : Bool
  post_hint : Option String
  url : String
  url_overridden_by_dest : Option String
  media_fallback_url : Option String
  media_metadata : Option (List (String × MediaItem))
  thumbnail : Option String

/-- The mapped post object returned per listing child (lines 211-230). -/
structure Post where
  id : String
  title : String
  score : Int
  author : String
  subreddit : String
  created_utc : Nat
  permalink : String
  num_comments : Nat
  is_self : Bool
  selftext : Option String
  over_18 : Bool
  spoiler : Bool
  stickied : Bool
  flair : Option String
  post_type : String
  media_url : Option String
  thumbnail : Option String
  gallery_urls : Option (List String)

/-- JS truthiness of an optional string (absent, null and `""` are falsy). -/
def jsTruthy (o : Option String) : Bool :=
  match o with
  | some s => s != ""
  | none => false

/-- The derived post type (lines 174-186): first matching check wins, the
default is `"link"`. -/
def postTypeOf (p : RawPost) : String :=
  if p.is_video then "video"
  else if p.is_gallery then "gallery"
  else if p.is_self then "text"
  else if p.post_hint = some "image" then "image"
  else if p.post_hint = some "link" then "link"
  else "link"

/-- The representative media URL (lines 188-194): a video's fallback URL
when the type is video and one exists, else the destination-override URL
when present, else the post's own URL. -/
def mediaUrlOf (p : RawPost) : String :=
  if postTypeOf p = "video" && jsTruthy p.media_fallback_url then
    p.media_fallback_url.getD ""
  else if jsTruthy p.url_overridden_by_dest then
    p.url_overridden_by_dest.getD ""
  else p.url

/-- JavaScript `String.prototype.split('/')`: every `/` separates two
(possibly empty) segments. -/
def splitOnSlashChars : List Char → List (List Char)
  | [] => [[]]
  | c :: rest =>
    if c == '/' then [] :: splitOnSlashChars rest
    else
      match splitOnSlashChars rest with
      | seg :: segs => (c :: seg) :: segs
      | [] => [[c]]

def jsSplitSlash (s : String) : List String :=
  (splitOnSlashChars s.data).map (fun l => String.mk l)

/-- The file extension for a gallery item: `item.m?.split('/')[1] || 'jpg'`
(line 203) — the MIME subtype, falling back to `"jpg"` when `m` is absent,
has no `/`-separated second component, or that component is empty. -/
def galleryExt (m : Option String) : String :=
  match m with
  | none => "jpg"
  | some s =>
    match (jsSplitSlash s).get? 1 with
    | some ext => if ext = "" then "jpg" else ext
    | none => "jpg"

/-- The URL built for one valid gallery image (line 204). -/
def galleryUrl (item : MediaItem) : String :=
  "https://i.redd.it/" ++ item.id ++ "." ++ galleryExt item.m

/-- The gallery URL list (lines 199-208): map each metadata entry to a URL
when its status is `"valid"` and its element type is `"Image"`, to null
otherwise, then filter the nulls out. -/
def galleryUrlsOf (mm : List (String × MediaItem)) : List String :=
  (mm.map fun kv =>
    if kv.2.status = "valid" ∧ kv.2.e = "Image" then some (galleryUrl kv.2)
    else none).reduceOption

/-- The per-post mapper (lines 171-230). -/
def mapPost (p : RawPost) : Post :=
  let post_type := postTypeOf p
  let media_url := mediaUrlOf p
  let gallery_urls :=
    if p.is_gallery then p.media_metadata.map galleryUrlsOf else none
  { id := p.id
    title := p.title
    score := p.score
    author := jsOrDeleted p.author
    subreddit := p.subreddit_name_prefixed
    created_utc := p.created_utc
    permalink := "https://www.reddit.com" ++ p.permalink
    num_comments := p.num_comments
    is_self := p.is_self
    selftext := if p.is_self then p.selftext.map (fun s => s.take 2000) else none
    over_18 := p.over_18
    spoiler := p.spoiler
    stickied := p.stickied
    flair := match p.link_flair_text with
      | some f => if f = "" then none else some f
      | none => none
    post_type := post_type
    media_url := if post_type ≠ "text" then some media_url else none
    thumbnail := match p.thumbnail with
      | some t =>
        if t ∈ (["self", "default", "nsfw", "spoiler", "image", ""] : List String)
        then none else some t
      | none => none
    gallery_urls := gallery_urls }

/-! ## Token manager (`getAppOnlyToken`, redditService.js 27-81)

The module-level state is `accessToken`, `tokenExpiry` and the
`isFetchingToken` flag (lines 27-29).  `getAppOnlyToken` is embedded as a
state-passing function: the caller supplies the state the function reads and
the outcome of the (at most one) token exchange it performs.  Times are
milliseconds. -/

structure TokenState where
  accessToken : Option String
  tokenExpiry : Option Int
  isFetchingToken : Bool

/-- The token endpoint's parsed 2xx response body (`response.data`):
`access_token` is `none` when the field is missing. -/
structure TokenResponseBody where
  access_token : Option String
  expires_in : Int

/-- What the awaited `axios.post` to the token endpoint does: resolve with a
body (2xx) or reject (network failure or non-2xx status) with the error's
`message`. -/
inductive ExchangeOutcome where
  | success (body : TokenResponseBody)
  | failure (message : String)

/-- What one `getAppOnlyToken` call produces: the module state it leaves
behind, its return value (`Except` models a thrown error; the ok value is
the possibly-null `accessToken` it returns) and how many token exchanges
(POSTs to the token endpoint) it performed. -/
structure TokenFetchResult where
  state : TokenState
  result : Except String (Option String)
  exchanges : Nat

/-- The error message thrown at line 79. -/
def tokenFailureMsg (m : String) : String :=
  "Failed to obtain Reddit access token. Check credentials and Reddit status. " ++ m

/-- `getAppOnlyToken` (lines 36-81).  When `isFetchingToken` is set the call
sleeps 1000 ms and returns whatever `accessToken` then holds, performing no
exchange (lines 37-42); `st` is therefore the state as of the caller's wake
time.  Otherwise the flag is set and one exchange is performed: a body
carrying a non-empty `access_token` is stored with expiry
`now + (expires_in - 60) * 1000` (lines 61-68); a missing token field throws
`Invalid response received from Reddit token endpoint` into the catch block,
which — as for a rejected POST — clears both `accessToken` and `tokenExpiry`,
resets the flag and rethrows (lines 69-80). -/
def getAppOnlyToken (st : TokenState) (now : Int) (outcome : ExchangeOutcome) :
    TokenFetchResult :=
  if st.isFetchingToken then
    { state := st, result := .ok st.accessToken, exchanges := 0 }
  else
    match outcome with
    | .success body =>
      match body.access_token with
      | some tok =>
        if tok ≠ "" then
          { state :=
              { accessToken := some tok
                tokenExpiry := some (now + (body.expires_in - 60) * 1000)
                isFetchingToken := false }
            result := .ok (some tok)
            exchanges := 1 }
        else
          { state := { accessToken := none, tokenExpiry := none, isFetchingToken := false }
            result := .error (tokenFailureMsg "Invalid response received from Reddit token endpoint")
            exchanges := 1 }
      | none =>
        { state := { accessToken := none, tokenExpiry := none, isFetchingToken := false }
          result := .error (tokenFailureMsg "Invalid response received from Reddit token endpoint")
          exchanges := 1 }
    | .failure message =>
      { state := { accessToken := none, tokenExpiry := none, isFetchingToken := false }
        result := .error (tokenFailureMsg message)
        exchanges := 1 }

/-- An exchange outcome the success path cannot use: a rejected POST, or a
2xx body whose `access_token` field is missing or empty. -/
def exchangeFailed (outcome : ExchangeOutcome) : Bool :=
  match outcome with
  | .failure _ => true
  | .success body =>
    match body.access_token with
    | some tok => tok == ""
    | none => true

/-- Two `GetValidToken` callers racing while no valid token is held,
replayed on the single-threaded event loop.  Caller A enters first, finds
`isFetchingToken` clear, sets it (no await separates the check at line 37
from the store at line 44) and starts the one exchange, which resolves
`fetchDuration` ms later.  Caller B enters while the flag is set, so it
sleeps exactly 1000 ms (line 40) and then returns the module's `accessToken`
(line 41) — that read sees the post-exchange state only if the exchange
resolved within B's sleep.  The components are A's returned value, B's
returned value, and the total number of exchanges performed. -/
def twoCallerGetToken (st0 : TokenState) (fetchDuration : Nat)
    (outcome : ExchangeOutcome) (now : Int) :
    Except String (Option String) × Option String × Nat :=
  let a := getAppOnlyToken { st0 with isFetchingToken := false } now outcome
  let stAtWakeB := if fetchDuration ≤ 1000 then a.state
    else { st0 with isFetchingToken := true }
  (a.result, stAtWakeB.accessToken, a.exchanges)

/-! ## Request pacing (the request interceptor, redditService.js 102-112)

The interceptor reads `lastRequestTime`, computes the elapsed time, awaits
`BASE_REQUEST_DELAY_MS - elapsed` when the elapsed time is short, and only
then stores `Date.now()` back into `lastRequestTime` and dispatches.  The
read and the write are separated by the await and nothing guards them. -/

def BASE_REQUEST_DELAY_MS : Nat := 1100

/-- The delay the interceptor awaits (lines 104-110) for a caller that read
`last` from `lastRequestTime` at time `now`. -/
def pacingDelay (last now : Nat) : Nat :=
  if now - last < BASE_REQUEST_DELAY_MS then BASE_REQUEST_DELAY_MS - (now - last)
  else 0

/-- When the request is dispatched (and `lastRequestTime` updated, line 112)
for a caller entering the interceptor at `arrival` having read `last`. -/
def dispatchTime (last arrival : Nat) : Nat :=
  arrival + pacingDelay last arrival

/-- Two callers entering the interceptor concurrently, replayed on the event
loop: `last0` is `lastRequestTime` when A arrives at `arrivalA`; B arrives
at `arrivalB`.  A caller updates `lastRequestTime` only at its own dispatch
moment, so B's read (at its arrival) still sees `last0` whenever B arrives
before A dispatches, and neither caller re-checks the clock after waking.
The value is the pair of dispatch start times. -/
def twoCallerDispatch (last0 arrivalA arrivalB : Nat) : Nat × Nat :=
  let dA := dispatchTime last0 arrivalA
  let lastSeenB := if arrivalB < dA then last0 else dA
  (dA, dispatchTime lastSeenB arrivalB)

/-! ## Retry policy (`axiosRetry` configuration, redditService.js 141-155)

`RETRY_COUNT`, `retryCondition` and `retryDelay` are the source's
configuration; the surrounding loop (attempt, and on a qualifying error wait
and re-attempt while fewer than `retries` retries have been used) is the
axios-retry library's documented behaviour, with `retryCount` counting the
retries performed so far. -/

/-- A failed attempt as `retryCondition` reads it: `status` is
`error.response?.status` (`none` = no HTTP response came back) and
`isNetworkOrIdempotent` is what
`axiosRetry.isNetworkOrIdempotentRequestError(error)` returns for it. -/
structure UpstreamError where
  status : Option Nat
  isNetworkOrIdempotent : Bool
  deriving DecidableEq

def RETRY_COUNT : Nat := 3

/-- `retryCondition` (lines 150-153). -/
def retryCondition (e : UpstreamError) : Bool :=
  e.status == some 429 || e.isNetworkOrIdempotent

/-- `retryDelay` (lines 143-149), in milliseconds: 2^(retryCount-1) seconds. -/
def retryDelayMs (retryCount : Nat) : Nat :=
  2 ^ (retryCount - 1) * 1000

/-- What one dispatch produced: the surfaced result, the number of attempts
made, and the backoff delays awaited between them, in order. -/
structure DispatchTrace where
  result : Except UpstreamError Nat
  attempts : Nat
  delays : List Nat

/-- The axios-retry loop: `outcomes k` is what attempt `k` (0-based) would
produce, `budget` the retries still allowed (`retries - retryCount`), `k`
the current attempt index.  On an error, a retry happens only when budget
remains and `retryCondition` holds; the delay before retry `n` is
`retryDelayMs n`. -/
def axiosRetryGo (outcomes : Nat → Except UpstreamError Nat) :
    Nat → Nat → DispatchTrace
  | budget, k =>
    match outcomes k, budget with
    | .ok v, _ => { result := .ok v, attempts := k + 1, delays := [] }
    | .error e, 0 => { result := .error e, attempts := k + 1, delays := [] }
    | .error e, b + 1 =>
      if retryCondition e then
        let t := axiosRetryGo outcomes b (k + 1)
        { result := t.result, attempts := t.attempts,
          delays := retryDelayMs (k + 1) :: t.delays }
      else { result := .error e, attempts := k + 1, delays := [] }

/-- A full dispatch through the configured instance: up to `RETRY_COUNT`
retries starting at attempt 0. -/
def axiosRetryRun (outcomes : Nat → Except UpstreamError Nat) : DispatchTrace :=
  axiosRetryGo outcomes RETRY_COUNT 0

/-! ## The claims -/

/-- C10: a null, undefined or empty-string input makes `cleanDescriptionText`
return the empty string (the function is total over all string-or-absent
inputs by construction). -/
theorem cleanDescription_empty_inputs :
    cleanDescriptionText none = "" ∧ cleanDescriptionText (some "") = "" :=
  ⟨rfl, rfl⟩

/-- C5 counterexample: the cleaning the claim describes (header, rule and
bullet patterns anchored per line; every whitespace run collapsed to one
space) disagrees with the code.  The code removes `---` anywhere in a line
(`"a---b"` becomes `"ab"`, the claimed cleaning leaves it), and the code
leaves a lone whitespace character alone (`"a\nb"` keeps its newline, the
claimed cleaning yields `"a b"`). -/
theorem cleanDescription_anchoring_counterexample :
    cleanDescriptionText (some "a---b") = "ab"
  ∧ cleanDescriptionClaim (some "a---b") = "a---b"
  ∧ cleanDescriptionText (some "a\nb") = "a\nb"
  ∧ cleanDescriptionClaim (some "a\nb") = "a b"
  ∧ cleanDescriptionText (some "a---b") ≠ cleanDescriptionClaim (some "a---b")
  ∧ cleanDescriptionText (some "a\nb") ≠ cleanDescriptionClaim (some "a\nb") := by
  refine ⟨rfl, rfl, rfl, rfl, ?_, ?_⟩ <;> decide

/-- C5 as amended: `cleanDescriptionText` strips HTML tags, converts
Markdown links to their text, strips header markers anchored at line starts,
removes horizontal rules and emphasis markers anywhere in the text (they are
not line-anchored; a single-dash bullet is not stripped), collapses runs of
two or more whitespace characters to a single space, and trims; the spec's
example input cleans to exactly `"Bold and a link with html"`. -/
theorem cleanDescription_amended_behaviour :
    cleanDescriptionText (some "**Bold** and [a link](http://x) with <b>html</b>")
      = "Bold and a link with html"
  ∧ cleanDescriptionText (some "a---b") = "ab"
  ∧ cleanDescriptionText (some "# Title\nbody  text") = "Title\nbody text"
  ∧ cleanDescriptionText (some "x #y") = "x #y"
  ∧ cleanDescriptionText (some "- item") = "- item"
  ∧ cleanDescriptionText (some "a\nb") = "a\nb" :=
  ⟨rfl, rfl, rfl, rfl, rfl, rfl⟩

/-- C1: two concurrent `getAppOnlyToken` calls with no token held, where the
exchange resolves after 2000 ms.  Exactly one exchange is performed (the
flag set between the check at line 37 and the store at line 44 admits no
interleaving on the event loop), but the waiting caller — which only sleeps
a fixed 1000 ms and then reads `accessToken` — returns the stale null token
instead of the exchange's outcome, refuting the claim's second half. -/
theorem token_waiter_misses_exchange_outcome :
    twoCallerGetToken ⟨none, none, false⟩ 2000
        (.success ⟨some "tok", 3600⟩) 0
      = (.ok (some "tok"), none, 1)
  ∧ (twoCallerGetToken ⟨none, none, false⟩ 2000
        (.success ⟨some "tok", 3600⟩) 0).2.1 ≠ some "tok" := by
  refine ⟨rfl, ?_⟩
  decide

/-- C2: two callers entering the request interceptor concurrently
(`lastRequestTime = 0`, arrivals at 100 ms and 200 ms).  Both read the stale
`lastRequestTime` — the update at line 112 only happens after the awaited
delay — so both wake and dispatch at t = 1100 ms: consecutive dispatch
starts 0 ms apart, below the 1100 ms minimum interval the claim asserts. -/
theorem pacing_concurrent_zero_gap :
    twoCallerDispatch 0 100 200 = (1100, 1100)
  ∧ (twoCallerDispatch 0 100 200).2 - (twoCallerDispatch 0 100 200).1 = 0
  ∧ 0 < BASE_REQUEST_DELAY_MS := by
  refine ⟨?_, ?_, ?_⟩ <;> decide

theorem axiosRetryGo_attempts_le (outcomes : Nat → Except UpstreamError Nat) :
    ∀ b k : Nat, (axiosRetryGo outcomes b k).attempts ≤ k + b + 1 := by
  intro b
  induction b with
  | zero =>
    intro k
    unfold axiosRetryGo
    cases h : outcomes k <;> simp
  | succ b ih =>
    intro k
    unfold axiosRetryGo
    cases h : outcomes k with
    | ok v => simp
    | error e =>
      by_cases hc : retryCondition e = true
      · have := ih (k + 1)
        simp [hc]
        omega
      · simp [hc]

theorem axiosRetryGo_attempts_ge (outcomes : Nat → Except UpstreamError Nat) :
    ∀ b k : Nat, k + 1 ≤ (axiosRetryGo outcomes b k).attempts := by
  intro b
  induction b with
  | zero =>
    intro k
    unfold axiosRetryGo
    cases h : outcomes k <;> simp
  | succ b ih =>
    intro k
    unfold axiosRetryGo
    cases h : outcomes k with
    | ok v => simp
    | error e =>
      by_cases hc : retryCondition e = true
      · have := ih (k + 1)
        simp [hc]
        omega
      · simp [hc]

/-- C3: a dispatched request is retried exactly when the failure is an HTTP
429 or classified network/idempotent (a plain 4xx response such as a 404 is
neither, so it surfaces on the first attempt with no delay); a run of
qualifying failures is retried with backoff delays 1000, 2000 and 4000 ms
and after the third failed retry the last error surfaces; a qualifying first
failure always triggers a second attempt after a 1000 ms delay; no dispatch
ever makes more than `RETRY_COUNT + 1` attempts. -/
theorem retry_policy_spec :
    (∀ e : UpstreamError,
       retryCondition e = true ↔ (e.status = some 429 ∨ e.isNetworkOrIdempotent = true))
  ∧ (∀ (outcomes : Nat → Except UpstreamError Nat) (e : UpstreamError),
       retryCondition e = false → outcomes 0 = .error e →
       axiosRetryRun outcomes = ⟨.error e, 1, []⟩)
  ∧ (∀ (outcomes : Nat → Except UpstreamError Nat) (e0 e1 e2 e3 : UpstreamError),
       outcomes 0 = .error e0 → outcomes 1 = .error e1 →
       outcomes 2 = .error e2 → outcomes 3 = .error e3 →
       retryCondition e0 = true → retryCondition e1 = true → retryCondition e2 = true →
       axiosRetryRun outcomes = ⟨.error e3, 4, [1000, 2000, 4000]⟩)
  ∧ (∀ (outcomes : Nat → Except UpstreamError Nat) (e : UpstreamError),
       retryCondition e = true → outcomes 0 = .error e →
       2 ≤ (axiosRetryRun outcomes).attempts
       ∧ (axiosRetryRun outcomes).delays.head? = some 1000)
  ∧ (∀ outcomes : Nat → Except UpstreamError Nat,
       (axiosRetryRun outcomes).attempts ≤ RETRY_COUNT + 1) := by
  refine ⟨?_, ?_, ?_, ?_, ?_⟩
  · intro e
    simp [retryCondition]
  · intro outcomes e hc h0
    simp [axiosRetryRun, RETRY_COUNT, axiosRetryGo, h0, hc]
  · intro outcomes e0 e1 e2 e3 h0 h1 h2 h3 hc0 hc1 hc2
    simp [axiosRetryRun, RETRY_COUNT, axiosRetryGo, h0, h1, h2, h3, hc0, hc1, hc2,
      retryDelayMs]
  · intro outcomes e hc h0
    have hge := axiosRetryGo_attempts_ge outcomes 2 1
    constructor
    · simp [axiosRetryRun, RETRY_COUNT, axiosRetryGo, h0, hc]
      omega
    · simp [axiosRetryRun, RETRY_COUNT, axiosRetryGo, h0, hc, retryDelayMs]
  · intro outcomes
    have := axiosRetryGo_attempts_le outcomes RETRY_COUNT 0
    simpa [axiosRetryRun] using this

/-- The spec's example thread: one real comment with two nested replies and
one `more` placeholder sibling. -/
def exampleCommentThread : List RawCommentWrapper :=
  [.mk "t1" "c1" (some "alice") "top comment" "<p>top</p>" 42 1700000000 false true
      "/r/test/comments/x/c1/" "t3_x" 0 none
      (some [.mk "t1" "r1" (some "bob") "first reply" "<p>r1</p>" 7 1700000100 false false
          "/r/test/comments/x/r1/" "t1_c1" 0 none none,
        .mk "t1" "r2" none "second reply" "<p>r2</p>" 3 1700000200 true false
          "/r/test/comments/x/r2/" "t1_c1" 0 none none]),
    .mk "more" "m1" none "" "" 0 0 false false "" "t1_c1" 5 (some ["d1", "d2", "d3"]) none]

/-- C4: normalization maps a `t1` wrapper to a comment node with its own
fields and recursively normalized replies (empty when absent), maps a `more`
wrapper to a placeholder carrying the hidden count, parent id and child-id
list, drops every other kind without error, and keeps the input order; on
the spec's example thread it yields a two-entry root list — a comment with
exactly two reply children and a correct `more` node. -/
theorem formatApiComments_spec :
    (∀ (kind id : String) (author : Option String) (body body_html : String)
       (score : Int) (created_utc : Nat) (stickied is_submitter : Bool)
       (permalink parent_id : String) (count : Nat)
       (children : Option (List String)) (replies : Option (List RawCommentWrapper))
       (ws : List RawCommentWrapper),
       kind ≠ "more" → kind ≠ "t1" →
       formatApiComments (.mk kind id author body body_html score created_utc
           stickied is_submitter permalink parent_id count children replies :: ws)
         = formatApiComments ws)
  ∧ (∀ (id : String) (author : Option String) (body body_html : String)
       (score : Int) (created_utc : Nat) (stickied is_submitter : Bool)
       (permalink parent_id : String) (count : Nat)
       (children : Option (List String)) (replies : Option (List RawCommentWrapper))
       (ws : List RawCommentWrapper),
       formatApiComments (.mk "more" id author body body_html score created_utc
           stickied is_submitter permalink parent_id count children replies :: ws)
         = .more id count parent_id (children.getD []) :: formatApiComments ws)
  ∧ (∀ (id : String) (author : Option String) (body body_html : String)
       (score : Int) (created_utc : Nat) (stickied is_submitter : Bool)
       (permalink parent_id : String) (count : Nat)
       (children : Option (List String)) (replies : Option (List RawCommentWrapper))
       (ws : List RawCommentWrapper),
       formatApiComments (.mk "t1" id author body body_html score created_utc
           stickied is_submitter permalink parent_id count children replies :: ws)
         = .comment id (jsOrDeleted author) body body_html score created_utc
             stickied is_submitter ("https://www.reddit.com" ++ permalink) parent_id
             (formatApiComments (replies.getD [])) :: formatApiComments ws)
  ∧ formatApiComments exampleCommentThread
      = [.comment "c1" "alice" "top comment" "<p>top</p>" 42 1700000000 false true
            "https://www.reddit.com/r/test/comments/x/c1/" "t3_x"
            [.comment "r1" "bob" "first reply" "<p>r1</p>" 7 1700000100 false false
                "https://www.reddit.com/r/test/comments/x/r1/" "t1_c1" [],
              .comment "r2" "[deleted]" "second reply" "<p>r2</p>" 3 1700000200 true false
                "https://www.reddit.com/r/test/comments/x/r2/" "t1_c1" []],
          .more "m1" 5 "t1_c1" ["d1", "d2", "d3"]] := by
  refine ⟨?_, ?_, ?_, ?_⟩
  · intro kind id author body body_html score created_utc stickied is_submitter
      permalink parent_id count children replies ws h1 h2
    rw [formatApiComments.eq_def]
    simp only []
    rw [if_neg h1, if_neg h2]
  · intro id author body body_html score created_utc stickied is_submitter
      permalink parent_id count children replies ws
    rw [formatApiComments.eq_def]
    simp
  · intro id author body body_html score created_utc stickied is_submitter
      permalink parent_id count children replies ws
    rw [formatApiComments.eq_def]
    cases replies <;> simp [Option.getD]
  · simp [exampleCommentThread, formatApiComments, jsOrDeleted]

/-- C4 witness: a wrapper of unknown kind is dropped (the first conjunct of
`formatApiComments_spec` applied at a concrete input). -/
theorem formatApiComments_spec_witness :
    formatApiComments [.mk "t5" "x" none "" "" 0 0 false false "" "" 0 none none]
      = [] := by
  have h := formatApiComments_spec.1 "t5" "x" none "" "" 0 0 false false "" "" 0
    none none [] (by decide) (by decide)
  exact h.trans (by rw [formatApiComments.eq_def])

theorem mapPost_post_type (p : RawPost) : (mapPost p).post_type = postTypeOf p := rfl

/-- C6: the derived post type applies the checks in fixed order with the
first match winning — video flag, then gallery flag, then self flag, then
the post-hint field, defaulting to `"link"` — so each outcome is
characterized exactly by the earlier checks failing and its own check
holding (and `"link"` by everything up to the image hint failing). -/
theorem post_type_precedence (p : RawPost) :
    ((mapPost p).post_type = "video" ↔ p.is_video = true)
  ∧ ((mapPost p).post_type = "gallery" ↔ (p.is_video = false ∧ p.is_gallery = true))
  ∧ ((mapPost p).post_type = "text"
      ↔ (p.is_video = false ∧ p.is_gallery = false ∧ p.is_self = true))
  ∧ ((mapPost p).post_type = "image"
      ↔ (p.is_video = false ∧ p.is_gallery = false ∧ p.is_self = false
          ∧ p.post_hint = some "image"))
  ∧ ((mapPost p).post_type = "link"
      ↔ (p.is_video = false ∧ p.is_gallery = false ∧ p.is_self = false
          ∧ p.post_hint ≠ some "image")) := by
  simp only [mapPost_post_type]
  unfold postTypeOf
  cases hv : p.is_video <;> cases hg : p.is_gallery <;> cases hs : p.is_self <;>
    by_cases hi : p.post_hint = some "image" <;>
    by_cases hl : p.post_hint = some "link" <;>
    simp_all

/-- C7: when the token exchange fails — rejected POST (network error or
non-2xx) or a 2xx body with no usable `access_token` — the call leaves no
credential behind (token and expiry cleared, any previously held token
included), resets the fetching flag, performs exactly one exchange (no
internal retry), and throws the line-79 error to its caller. -/
theorem token_exchange_failure_clears_state (st : TokenState) (now : Int)
    (outcome : ExchangeOutcome) (hflag : st.isFetchingToken = false)
    (hfail : exchangeFailed outcome = true) :
    (getAppOnlyToken st now outcome).state.accessToken = none
  ∧ (getAppOnlyToken st now outcome).state.tokenExpiry = none
  ∧ (getAppOnlyToken st now outcome).state.isFetchingToken = false
  ∧ (getAppOnlyToken st now outcome).exchanges = 1
  ∧ ∃ m, (getAppOnlyToken st now outcome).result = .error (tokenFailureMsg m) := by
  cases outcome with
  | failure m =>
    simp [getAppOnlyToken, hflag]
  | success body =>
    cases hb : body.access_token with
    | none => simp [getAppOnlyToken, hflag, hb]
    | some tok =>
      have ht : tok = "" := by simpa [exchangeFailed, hb] using hfail
      simp [getAppOnlyToken, hflag, hb, ht]

/-- C7 witness: a concrete failed exchange (HTTP 401) over a state that held
a previous credential. -/
theorem token_exchange_failure_clears_state_witness :
    (getAppOnlyToken ⟨some "cached", some 9999999, false⟩ 0
        (.failure "Request failed with status code 401")).state.accessToken = none
  ∧ (getAppOnlyToken ⟨some "cached", some 9999999, false⟩ 0
        (.failure "Request failed with status code 401")).state.tokenExpiry = none
  ∧ (getAppOnlyToken ⟨some "cached", some 9999999, false⟩ 0
        (.failure "Request failed with status code 401")).state.isFetchingToken = false
  ∧ (getAppOnlyToken ⟨some "cached", some 9999999, false⟩ 0
        (.failure "Request failed with status code 401")).exchanges = 1
  ∧ ∃ m, (getAppOnlyToken ⟨some "cached", some 9999999, false⟩ 0
        (.failure "Request failed with status code 401")).result
      = .error (tokenFailureMsg m) :=
  token_exchange_failure_clears_state ⟨some "cached", some 9999999, false⟩ 0
    (.failure "Request failed with status code 401") rfl rfl

/-- A gallery post whose metadata map has two valid image entries (one with
a MIME type, one without) and one entry whose status is not `"valid"`. -/
def galleryExamplePost : RawPost :=
  { id := "g1", title := "gallery", score := 10, author := some "carol",
    subreddit_name_prefixed := "r/test", created_utc := 1700000300,
    permalink := "/r/test/comments/g1/", num_comments := 2, is_self := false,
    selftext := none, over_18 := false, spoiler := false, stickied := false,
    link_flair_text := none, is_video := false, is_gallery := true,
    post_hint := none, url := "https://www.reddit.com/gallery/g1",
    url_overridden_by_dest := none, media_fallback_url := none,
    media_metadata := some [("abc", ⟨"valid", "Image", some "image/png", "abc"⟩),
      ("def", ⟨"failed", "Image", some "image/png", "def"⟩),
      ("ghi", ⟨"valid", "Image", none, "ghi"⟩)],
    thumbnail := none }

/-- C8: the gallery URL list keeps exactly the metadata entries whose status
is `"valid"` and whose element type is `"Image"`, in order, each mapped to
`https://i.redd.it/<id>.<ext>` with the extension from the MIME subtype
(`"jpg"` when the MIME type is absent); the example post with two valid
image entries and one non-valid entry yields exactly its two URLs. -/
theorem gallery_urls_spec :
    (∀ mm : List (String × MediaItem),
       galleryUrlsOf mm
         = (mm.filter fun kv => kv.2.status == "valid" && kv.2.e == "Image").map
             (fun kv => "https://i.redd.it/" ++ kv.2.id ++ "." ++ galleryExt kv.2.m))
  ∧ galleryExt none = "jpg"
  ∧ galleryExt (some "image/png") = "png"
  ∧ (mapPost galleryExamplePost).gallery_urls
      = some ["https://i.redd.it/abc.png", "https://i.redd.it/ghi.jpg"] := by
  refine ⟨?_, rfl, rfl, rfl⟩
  intro mm
  induction mm with
  | nil => simp [galleryUrlsOf]
  | cons kv rest ih =>
    simp only [galleryUrlsOf, galleryUrl] at ih ⊢
    by_cases h : kv.2.status = "valid" ∧ kv.2.e = "Image"
    · simp [List.filter_cons, h.1, h.2, ih]
    · simp [List.filter_cons, h, ih]

end RedditScraper
